import Mathlib

/-!
Verification of the job-monitor repository's Job Discovery Engine against its
specification. The Python source (job_monitor_enhanced.py, job_monitor_railway.py)
is shallowly embedded: SQLite tables become explicit lists, timestamps become
natural-number ticks, dictionaries become association lists, and the Playwright
page interaction becomes an explicit environment value describing what the page
returned. Every definition follows the corresponding source function.
-/

namespace JobMonitor

/-- A scraped job posting as built by `scrape_job_site` and consumed by the store:
the Python dict with keys title/company/url/location/department/employment_type. -/
structure JobData where
  title : String
  company : String
  url : String
  location : String := ""
  department : String := ""
  employment_type : String := ""
deriving Repr, DecidableEq

/-- Python `str.lower()` modelled character-wise (`Char.toLower`), over the
underlying character list. -/
def lower (s : String) : String := ⟨s.data.map Char.toLower⟩

/-- Python `str.strip()`: drop whitespace from both ends. -/
def strip (s : String) : String :=
  ⟨((s.data.dropWhile Char.isWhitespace).reverse.dropWhile Char.isWhitespace).reverse⟩

/-- Python's substring test `needle in hay` on character lists: some suffix of
`hay` starts with `needle`. -/
def has_substr : List Char → List Char → Bool
  | needle, [] => needle.isEmpty
  | needle, c :: rest => needle.isPrefixOf (c :: rest) || has_substr needle rest

/-- Python `needle in hay` on strings. -/
def str_contains (hay needle : String) : Bool := has_substr needle.data hay.data

/-- The string the source feeds to the digest in `JobDatabase.generate_job_hash`:
`f"{title}{company}{url}"`, an unseparated concatenation. -/
def hash_string (jd : JobData) : String := jd.title ++ jd.company ++ jd.url

/-- `hashlib.md5(...).hexdigest()` modelled as an injective digest of its input
string. The claims below rely only on the digest being a function of the input
(equal inputs give equal digests); the amended C3 additionally treats the digest
as collision-free, the standard idealization of a cryptographic hash. -/
def md5_hexdigest (s : String) : String := s

/-- `JobDatabase.generate_job_hash`: md5 hexdigest of title+company+url. -/
def generate_job_hash (jd : JobData) : String := md5_hexdigest (hash_string jd)

/-- A row of the `jobs` table. -/
structure JobRecord where
  job_hash : String
  title : String
  company : String
  url : String
  location : String
  department : String
  employment_type : String
  first_seen : Nat
  last_updated : Nat
  status : String
  notes : Option String
deriving Repr, DecidableEq

/-- A row of the `job_status_history` table. -/
structure HistoryEntry where
  job_hash : String
  status : String
  timestamp : Nat
  notes : Option String
deriving Repr, DecidableEq

/-- The SQLite database: the two tables created by `init_database`, each as the
list of its rows in insertion order. -/
structure DB where
  jobs : List JobRecord
  history : List HistoryEntry
deriving Repr, DecidableEq

/-- A freshly initialized database: both tables empty. -/
def DB.empty : DB := ⟨[], []⟩

/-- `JobDatabase.job_exists`: `SELECT 1 FROM jobs WHERE job_hash = ?` is non-empty. -/
def job_exists (db : DB) (h : String) : Bool :=
  db.jobs.any (fun r => r.job_hash == h)

/-- `JobDatabase.add_job`: compute the hash; if a record exists return `False`
with no mutation; otherwise INSERT the job row (status defaults to `new`,
first_seen/last_updated default to the current timestamp) and INSERT one
history row with status `new`, then return `True`. -/
def add_job (db : DB) (jd : JobData) (now : Nat) : Bool × DB :=
  let h := generate_job_hash jd
  if job_exists db h then (false, db)
  else
    let row : JobRecord :=
      { job_hash := h, title := jd.title, company := jd.company, url := jd.url,
        location := jd.location, department := jd.department,
        employment_type := jd.employment_type, first_seen := now, last_updated := now,
        status := "new", notes := none }
    let entry : HistoryEntry :=
      { job_hash := h, status := "new", timestamp := now,
        notes := some "Job discovered by monitor" }
    (true, { jobs := db.jobs ++ [row], history := db.history ++ [entry] })

/-- `JobDatabase.update_job_status`: UPDATE the status and last_updated of every
jobs row whose job_hash matches (zero rows when the hash is absent — SQLite's
UPDATE does not fail), then unconditionally INSERT one history row. The source
performs no existence check and has no error path. -/
def update_job_status (db : DB) (h : String) (st : String) (notes : Option String)
    (now : Nat) : DB :=
  let entry : HistoryEntry := { job_hash := h, status := st, timestamp := now, notes := notes }
  { jobs := db.jobs.map (fun r =>
      if r.job_hash == h then { r with status := st, last_updated := now } else r),
    history := db.history ++ [entry] }

/-- Count of history rows for one identity. -/
def count_history (db : DB) (h : String) : Nat :=
  (db.history.filter (fun e => e.job_hash == h)).length

/-- A sequence of `update_job_status` calls on one identity: each element gives
(status, notes, timestamp). -/
def apply_updates (db : DB) (h : String) (updates : List (String × Option String × Nat)) : DB :=
  updates.foldl (fun d u => update_job_status d h u.1 u.2.1 u.2.2) db

/-- `JobMonitor.filter_jobs_by_keywords`'s per-job test: some keyword, lowered,
occurs in the lowered title. -/
def title_matches (keywords : List String) (job : JobData) : Bool :=
  keywords.any (fun keyword => str_contains (lower job.title) (lower keyword))

/-- `JobMonitor.filter_jobs_by_keywords`: with no keywords return the input;
otherwise keep each job whose title contains some keyword case-insensitively. -/
def filter_jobs_by_keywords (jobs : List JobData) (keywords : List String) : List JobData :=
  if keywords.isEmpty then jobs
  else jobs.filter (title_matches keywords)

/-- A selector dictionary (`job_container`/`title`/`link` and friends) as an
association list, preserving Python dict truthiness: empty list ↔ falsy dict. -/
abbrev SelectorDict := List (String × String)

/-- One entry of `companies` in config.json: `{name, url, selectors?}`.
`selectors = none` models the key being absent. -/
structure CompanyConfig where
  name : String
  url : String
  selectors : Option SelectorDict
deriving Repr, DecidableEq

/-- `JobMonitor.generic_selectors`: the built-in table of platform selector sets,
in the source's order. -/
def generic_selectors : List (String × SelectorDict) :=
  [("lever",
     [("job_container", ".posting"),
      ("title", ".posting-btn, .posting-name"),
      ("link", "a.posting-btn")]),
   ("greenhouse",
     [("job_container", ".opening"),
      ("title", ".opening a, .opening h3"),
      ("link", ".opening a")]),
   ("ashby",
     [("job_container", ".job-posting"),
      ("title", ".job-posting h3, .job-posting a"),
      ("link", ".job-posting a")]),
   ("workday",
     [("job_container", ".job-result"),
      ("title", ".job-result h3, .job-result a"),
      ("link", ".job-result a")]),
   ("bamboo",
     [("job_container", ".job-listing"),
      ("title", ".job-listing h3, .job-listing a"),
      ("link", ".job-listing a")])]

/-- The fallback selector dictionary returned by `get_selectors_for_company`
when no platform matches. -/
def fallback_selectors : SelectorDict :=
  [("job_container", ".job, .position, .opening, .posting, [class*=\"job\"], [class*=\"position\"]"),
   ("title", "h1, h2, h3, h4, .title, .job-title, .position-title, a"),
   ("link", "a")]

/-- `JobMonitor.detect_job_platform`: classify the lowered URL by substring
tests in the source's fixed order; `custom` when nothing matches. -/
def detect_job_platform (url : String) : String :=
  let url_lower := lower url
  if str_contains url_lower "lever.co" then "lever"
  else if str_contains url_lower "boards.greenhouse.io" || str_contains url_lower "greenhouse" then
    "greenhouse"
  else if str_contains url_lower "jobs.ashbyhq.com" then "ashby"
  else if str_contains url_lower "workday" then "workday"
  else if str_contains url_lower "bamboohr" then "bamboo"
  else "custom"

/-- The platform branch of `get_selectors_for_company`: detect the platform,
use its generic selectors when the table has it, else the fallback dictionary. -/
def selectors_by_platform (url : String) : SelectorDict :=
  match generic_selectors.lookup (detect_job_platform url) with
  | some sel => sel
  | none => fallback_selectors

/-- `JobMonitor.get_selectors_for_company`: explicit selectors win when present
and truthy (non-empty); otherwise resolve by platform with generic fallback. -/
def get_selectors_for_company (config : CompanyConfig) : SelectorDict :=
  match config.selectors with
  | some sel => if sel.isEmpty then selectors_by_platform config.url else sel
  | none => selectors_by_platform config.url

/-- Python `str.startswith(pre)` on the character lists. -/
def starts_with (s pre : String) : Bool := pre.data.isPrefixOf s.data

/-- `urllib.parse.urljoin` modelled abstractly (base and relative part joined by
a slash); no claim under verification depends on its value, only on where the
source calls it. -/
def urljoin (base link : String) : String := base ++ "/" ++ link

/-- What the page yielded for one container element, as seen by the loop body of
`scrape_job_site`: the `inner_text()` of the title element when one matched
(`none` when `query_selector` returned no element), the final href string
(empty when no link element or no href), and the first non-empty heuristic
match for location/department/employment_type (`none` when no element matched). -/
structure ContainerFields where
  title_text : Option String
  link_href : String
  location_text : Option String
  department_text : Option String
  type_text : Option String
deriving Repr, DecidableEq

/-- One iteration of the container loop: either the element interaction threw
(caught by the inner `try/except ... continue`) or it yielded extracted fields. -/
inductive ContainerOutcome
  | raises
  | fields (f : ContainerFields)
deriving Repr, DecidableEq

/-- The body of `scrape_job_site`'s container loop: build the title (stripped
inner text, or the sentinel "Unknown Title" when no title element), resolve the
link against the page URL when relative, fill the optional fields, and emit the
job dict only when the title is non-empty and not the sentinel. -/
def process_container (company_name : String) (page_url : String) (f : ContainerFields) :
    Option JobData :=
  let title := match f.title_text with
    | some t => strip t
    | none => "Unknown Title"
  let link :=
    if f.link_href != "" && !(starts_with f.link_href "http://" || starts_with f.link_href "https://")
    then urljoin page_url f.link_href
    else f.link_href
  let location := match f.location_text with
    | some t => strip t
    | none => ""
  let department := match f.department_text with
    | some t => strip t
    | none => ""
  let employment_type := match f.type_text with
    | some t => strip t
    | none => ""
  if title != "" && title != "Unknown Title" then
    some { title := title, company := company_name, url := link, location := location,
           department := department, employment_type := employment_type }
  else none

/-- `JobMonitor.scrape_job_site`: the page environment is `none` when a total
failure occurred before any posting was accumulated (session creation,
navigation, or the container query throwing — all caught by the outer
`try/except`, which returns the still-empty `jobs` list), and `some cs` when the
container query returned the outcomes `cs`. The return type has no error
channel: the source never lets an exception escape this function. -/
def scrape_job_site (company_name : String) (url : String)
    (env : Option (List ContainerOutcome)) : List JobData :=
  match env with
  | none => []
  | some cs => cs.filterMap (fun c =>
      match c with
      | ContainerOutcome.raises => none
      | ContainerOutcome.fields f => process_container company_name url f)

/-- The two extraction backends of the Railway monitor: Playwright (dynamic) and
the requests+BeautifulSoup fallback patched in by `_patch_for_requests_scraping`. -/
inductive Backend
  | playwright
  | requests_bs4
deriving Repr, DecidableEq

/-- The state `RailwayJobMonitor` carries across a run: the `use_playwright`
flag set once by the availability probe in `__init__`, and the monitor's current
`scrape_job_site` attribute (initially the Playwright implementation). -/
structure RailwayState where
  use_playwright : Bool
  scrape_backend : Backend
deriving Repr, DecidableEq

/-- `RailwayJobMonitor.__init__`: run `_check_playwright_availability` exactly
once and store its result; the wrapped monitor starts with the Playwright
scraper. -/
def railway_init (probe_ok : Bool) : RailwayState :=
  { use_playwright := probe_ok, scrape_backend := Backend.playwright }

/-- `RailwayJobMonitor._patch_for_requests_scraping`: replace the monitor's
scrape attribute with the requests+BeautifulSoup implementation. -/
def patch_for_requests_scraping (m : RailwayState) : RailwayState :=
  { m with scrape_backend := Backend.requests_bs4 }

/-- `RailwayJobMonitor.run_monitoring_cycle`: patch the scraper once when the
probe failed, then loop over the configured sites, each extracted with the
monitor's current scrape attribute; returns which backend each site was
extracted with, in configuration order. -/
def run_cycle_backends (m : RailwayState) (sites : List String) : List (String × Backend) :=
  let m := if m.use_playwright then m else patch_for_requests_scraping m
  sites.map (fun site => (site, m.scrape_backend))

/-- Sample posting used by concrete witnesses. -/
def jA : JobData :=
  { title := "Senior DevOps Engineer", company := "Acme", url := "https://acme.example/jobs/1" }

/-- Second sample posting used by concrete witnesses. -/
def jB : JobData :=
  { title := "Accountant", company := "Acme", url := "https://acme.example/jobs/2" }

/-! ## Helper lemmas -/

/-- The empty needle occurs in every haystack (Python `"" in s` is `True`). -/
theorem has_substr_nil (l : List Char) : has_substr [] l = true := by
  cases l <;> simp [has_substr]

/-- When no record carries the hash, the UPDATE of `update_job_status` rewrites
no row. -/
theorem map_update_of_absent (l : List JobRecord) (h st : String) (now : Nat)
    (hno : l.any (fun r => r.job_hash == h) = false) :
    l.map (fun r => if r.job_hash == h then { r with status := st, last_updated := now } else r)
      = l := by
  induction l with
  | nil => rfl
  | cons a t ih =>
    simp only [List.any_cons, Bool.or_eq_false_iff] at hno
    have hc : ¬((a.job_hash == h) = true) := by simp [hno.1]
    rw [List.map_cons, if_neg hc, ih hno.2]

/-- `add_job` on an absent identity: the exact rows inserted. -/
theorem add_job_absent (db : DB) (jd : JobData) (now : Nat)
    (hj : job_exists db (generate_job_hash jd) = false) :
    add_job db jd now =
      (true,
        { jobs := db.jobs ++ [⟨generate_job_hash jd, jd.title, jd.company, jd.url, jd.location,
            jd.department, jd.employment_type, now, now, "new", none⟩],
          history := db.history ++ [⟨generate_job_hash jd, "new", now,
            some "Job discovered by monitor"⟩] }) := by
  simp [add_job, hj]

/-- `add_job` on a present identity: `False` and no mutation. -/
theorem add_job_present (db : DB) (jd : JobData) (now : Nat)
    (hj : job_exists db (generate_job_hash jd) = true) :
    add_job db jd now = (false, db) := by
  simp [add_job, hj]

/-- Each `update_job_status` call grows the identity's history count by one. -/
theorem count_history_update (db : DB) (h st : String) (notes : Option String) (now : Nat) :
    count_history (update_job_status db h st notes now) h = count_history db h + 1 := by
  simp [count_history, update_job_status, List.filter_append]

/-- A sequence of `update_job_status` calls grows the identity's history count
by its length. -/
theorem count_history_apply_updates (db : DB) (h : String)
    (updates : List (String × Option String × Nat)) :
    count_history (apply_updates db h updates) h = count_history db h + updates.length := by
  induction updates generalizing db with
  | nil => simp [apply_updates]
  | cons u us ih =>
    have : apply_updates db h (u :: us) = apply_updates (update_job_status db h u.1 u.2.1 u.2.2) h us := rfl
    rw [this, ih, count_history_update, List.length_cons]
    omega

/-! ## Claim theorems -/

/-- Claim C1, counterexample: on a store whose Job Records do not contain the
identity, `update_job_status` does not fail (it has no error path at all) and
the store state is not unchanged — one History Entry is appended for the absent
identity. This refutes "fails with NotFound, and on that failure the store
state is unchanged". -/
theorem C1_counterexample :
    job_exists DB.empty "d41d8cd98f00b204e9800998ecf8427e" = false ∧
    update_job_status DB.empty "d41d8cd98f00b204e9800998ecf8427e" "applied" none 1 ≠ DB.empty ∧
    (update_job_status DB.empty "d41d8cd98f00b204e9800998ecf8427e" "applied" none 1).history.length
      = 1 := by
  decide

/-- Claim C1 (amended): `set_status(identity, status, notes?)` never fails.
On every call it appends exactly one History Entry for the given identity; when
the identity is absent the Job Records are left unchanged (the UPDATE matches
no row, without error); when the identity is present the matching record's
status and last_updated are updated. -/
theorem C1_amended (db : DB) (h st : String) (notes : Option String) (now : Nat) :
    (update_job_status db h st notes now).history = db.history ++ [⟨h, st, now, notes⟩] ∧
    (job_exists db h = false → (update_job_status db h st notes now).jobs = db.jobs) ∧
    (job_exists db h = true →
      ∃ r, r ∈ (update_job_status db h st notes now).jobs ∧
        r.job_hash = h ∧ r.status = st ∧ r.last_updated = now) := by
  refine ⟨rfl, ?_, ?_⟩
  · intro hno
    exact map_update_of_absent db.jobs h st now hno
  · intro hyes
    rw [job_exists, List.any_eq_true] at hyes
    obtain ⟨r0, hr0, hbeq⟩ := hyes
    refine ⟨{ r0 with status := st, last_updated := now }, ?_, ?_, rfl, rfl⟩
    · have : ({ r0 with status := st, last_updated := now } : JobRecord) =
          (fun r => if r.job_hash == h then { r with status := st, last_updated := now } else r) r0 := by
        simp [hbeq]
      rw [update_job_status]
      exact this ▸ List.mem_map_of_mem _ hr0
    · simpa using hbeq

/-- Claim C1 witness: on a concrete store holding one job, updating its status
yields a record with the new status and timestamp. -/
theorem C1_amended_witness :
    job_exists (add_job DB.empty jA 0).2 (generate_job_hash jA) = true ∧
    (∃ r, r ∈ (update_job_status (add_job DB.empty jA 0).2 (generate_job_hash jA)
        "applied" none 3).jobs ∧
      r.job_hash = generate_job_hash jA ∧ r.status = "applied" ∧ r.last_updated = 3) :=
  ⟨by decide,
   (C1_amended (add_job DB.empty jA 0).2 (generate_job_hash jA) "applied" none 3).2.2 (by decide)⟩

/-- Claim C2: on a store containing no trace of P's identity, `add` returns
`true` then `false`, the second call performs no mutation, and the store holds
exactly one Job Record (status `new`) and exactly one History Entry (status
`new`) for that identity. -/
theorem C2_add_idempotent (db : DB) (P : JobData) (t1 t2 : Nat)
    (hj : job_exists db (generate_job_hash P) = false)
    (hh : count_history db (generate_job_hash P) = 0) :
    (add_job db P t1).1 = true ∧
    (add_job (add_job db P t1).2 P t2).1 = false ∧
    (add_job (add_job db P t1).2 P t2).2 = (add_job db P t1).2 ∧
    ((add_job db P t1).2.jobs.filter (fun r => r.job_hash == generate_job_hash P)).length = 1 ∧
    (∀ r, r ∈ (add_job db P t1).2.jobs → r.job_hash = generate_job_hash P → r.status = "new") ∧
    count_history (add_job db P t1).2 (generate_job_hash P) = 1 ∧
    (∀ e, e ∈ (add_job db P t1).2.history → e.job_hash = generate_job_hash P →
      e.status = "new") := by
  have hone := add_job_absent db P t1 hj
  have hnorec : ∀ r ∈ db.jobs, ¬(r.job_hash == generate_job_hash P) = true := by
    rw [job_exists] at hj
    exact List.any_eq_false.mp hj
  have hnohist : ∀ e ∈ db.history, ¬(e.job_hash == generate_job_hash P) = true := by
    rw [count_history, List.length_eq_zero] at hh
    exact List.filter_eq_nil_iff.mp hh
  have hexists2 : job_exists (add_job db P t1).2 (generate_job_hash P) = true := by
    rw [hone, job_exists, List.any_append]
    simp
  refine ⟨by rw [hone], ?_, ?_, ?_, ?_, ?_, ?_⟩
  · rw [add_job_present _ _ _ hexists2]
  · rw [add_job_present _ _ _ hexists2]
  · rw [hone, List.filter_append, List.filter_eq_nil_iff.mpr hnorec]
    simp
  · intro r hr hhash
    rw [hone] at hr
    rcases List.mem_append.mp hr with hin | hin
    · exact absurd (by simp [hhash]) (hnorec r hin)
    · rw [List.mem_singleton.mp hin]
  · rw [hone, count_history, List.filter_append, List.filter_eq_nil_iff.mpr hnohist]
    simp
  · intro e he hhash
    rw [hone] at he
    rcases List.mem_append.mp he with hin | hin
    · exact absurd (by simp [hhash]) (hnohist e hin)
    · rw [List.mem_singleton.mp hin]

/-- Claim C2 witness: concrete double insertion of a posting into the empty
store. -/
theorem C2_witness :
    job_exists DB.empty (generate_job_hash jA) = false ∧
    count_history DB.empty (generate_job_hash jA) = 0 ∧
    (add_job DB.empty jA 0).1 = true ∧
    (add_job (add_job DB.empty jA 0).2 jA 1).1 = false ∧
    (add_job (add_job DB.empty jA 0).2 jA 1).2 = (add_job DB.empty jA 0).2 ∧
    count_history (add_job DB.empty jA 0).2 (generate_job_hash jA) = 1 :=
  ⟨by decide, by decide,
   (C2_add_idempotent DB.empty jA 0 1 (by decide) (by decide)).1,
   (C2_add_idempotent DB.empty jA 0 1 (by decide) (by decide)).2.1,
   (C2_add_idempotent DB.empty jA 0 1 (by decide) (by decide)).2.2.1,
   (C2_add_idempotent DB.empty jA 0 1 (by decide) (by decide)).2.2.2.2.2.1⟩

/-- Claim C3, counterexample: identity is md5 of the unseparated concatenation
title+company+url, so the distinct triples ("ab","c","") and ("a","bc","")
concatenate to the same string "abc" and receive the same identity — the
claimed "iff" fails in the only-if direction. -/
theorem C3_counterexample :
    generate_job_hash { title := "ab", company := "c", url := "" } =
      generate_job_hash { title := "a", company := "bc", url := "" } ∧
    (("ab", "c", "") : String × String × String) ≠ ("a", "bc", "") := by
  decide

/-- Claim C3 (amended): identity is a deterministic pure function of exactly
(title, company, url) — equal triples give equal identity, and the other fields
are ignored — but identity(P1) = identity(P2) holds iff the unseparated
concatenations title+company+url coincide, which is weaker than equality of the
triples (distinct triples whose concatenations agree collide). -/
theorem C3_amended (P1 P2 : JobData) :
    (P1.title = P2.title ∧ P1.company = P2.company ∧ P1.url = P2.url →
      generate_job_hash P1 = generate_job_hash P2) ∧
    (generate_job_hash P1 = generate_job_hash P2 ↔ hash_string P1 = hash_string P2) ∧
    (∀ l1 d1 e1 l2 d2 e2 : String,
      generate_job_hash { P1 with location := l1, department := d1, employment_type := e1 } =
        generate_job_hash { P1 with location := l2, department := d2, employment_type := e2 }) := by
  refine ⟨?_, Iff.rfl, ?_⟩
  · rintro ⟨h1, h2, h3⟩
    simp [generate_job_hash, hash_string, h1, h2, h3]
  · intro l1 d1 e1 l2 d2 e2
    rfl

/-- Claim C3 witness: changing only the location leaves the identity unchanged
for a concrete posting. -/
theorem C3_amended_witness :
    (jA.title = ({ jA with location := "Warsaw" } : JobData).title ∧
      jA.company = ({ jA with location := "Warsaw" } : JobData).company ∧
      jA.url = ({ jA with location := "Warsaw" } : JobData).url) ∧
    generate_job_hash jA = generate_job_hash { jA with location := "Warsaw" } :=
  ⟨⟨rfl, rfl, rfl⟩, (C3_amended jA { jA with location := "Warsaw" }).1 ⟨rfl, rfl, rfl⟩⟩

/-- Claim C4: after `add` inserts an identity into a store with no trace of it,
N `set_status` calls leave exactly N+1 History Entries for that identity (the
initial `new` entry plus one per update), and every store operation only
appends to the history — existing entries are never edited or deleted. -/
theorem C4_history (db : DB) (P : JobData) (t : Nat)
    (updates : List (String × Option String × Nat))
    (hj : job_exists db (generate_job_hash P) = false)
    (hh : count_history db (generate_job_hash P) = 0) :
    count_history (apply_updates (add_job db P t).2 (generate_job_hash P) updates)
        (generate_job_hash P) = updates.length + 1 ∧
    (∀ d h' st notes now, ∃ tl,
      (update_job_status d h' st notes now).history = d.history ++ tl) ∧
    (∀ d jd now, ∃ tl, (add_job d jd now).2.history = d.history ++ tl) := by
  refine ⟨?_, ?_, ?_⟩
  · rw [count_history_apply_updates]
    have hnohist : ∀ e ∈ db.history, ¬(e.job_hash == generate_job_hash P) = true := by
      rw [count_history, List.length_eq_zero] at hh
      exact List.filter_eq_nil_iff.mp hh
    rw [add_job_absent db P t hj, count_history, List.filter_append,
      List.filter_eq_nil_iff.mpr hnohist]
    simp [Nat.add_comm]
  · intro d h' st notes now
    exact ⟨[⟨h', st, now, notes⟩], rfl⟩
  · intro d jd now
    by_cases hex : job_exists d (generate_job_hash jd) = true
    · rw [add_job_present d jd now hex]
      exact ⟨[], by simp⟩
    · rw [add_job_absent d jd now (Bool.eq_false_iff.mpr hex)]
      exact ⟨[⟨generate_job_hash jd, "new", now, some "Job discovered by monitor"⟩], rfl⟩

/-- Claim C4 witness: two status updates after insertion leave three history
entries for the identity. -/
theorem C4_witness :
    job_exists DB.empty (generate_job_hash jA) = false ∧
    count_history (apply_updates (add_job DB.empty jA 0).2 (generate_job_hash jA)
        [("applied", none, 1), ("interviewing", some "phone screen", 2)])
      (generate_job_hash jA) = 3 :=
  ⟨by decide,
   (C4_history DB.empty jA 0 [("applied", none, 1), ("interviewing", some "phone screen", 2)]
      (by decide) (by decide)).1⟩

/-- Claim C5: the keyword filter returns the input unchanged when the keyword
list is empty; otherwise it keeps, in input order (the output is a sublist of
the input), exactly the postings whose title contains some keyword as a
case-insensitive substring. It is a pure function of its two inputs by
construction. -/
theorem C5_keyword_filter (jobs : List JobData) (keywords : List String) :
    (keywords = [] → filter_jobs_by_keywords jobs keywords = jobs) ∧
    (filter_jobs_by_keywords jobs keywords).Sublist jobs ∧
    (keywords ≠ [] → ∀ j, j ∈ filter_jobs_by_keywords jobs keywords ↔
      (j ∈ jobs ∧ ∃ k ∈ keywords, str_contains (lower j.title) (lower k) = true)) := by
  refine ⟨?_, ?_, ?_⟩
  · intro he
    simp [filter_jobs_by_keywords, he]
  · by_cases he : keywords.isEmpty
    · simp only [filter_jobs_by_keywords, he, if_true]
      exact List.Sublist.refl _
    · simp only [filter_jobs_by_keywords, he, if_false]
      exact List.filter_sublist _
  · intro hne j
    cases keywords with
    | nil => exact absurd rfl hne
    | cons k ks =>
      simp [filter_jobs_by_keywords, title_matches, List.mem_filter, List.any_eq_true]

/-- Claim C5 witness: with keyword "ops", the DevOps posting is kept and
characterized by the substring condition. -/
theorem C5_witness :
    (["ops"] ≠ ([] : List String)) ∧
    (jA ∈ filter_jobs_by_keywords [jA, jB] ["ops"] ↔
      (jA ∈ [jA, jB] ∧ ∃ k ∈ ["ops"], str_contains (lower jA.title) (lower k) = true)) :=
  ⟨by decide, (C5_keyword_filter [jA, jB] ["ops"]).2.2 (by decide) jA⟩

/-- Claim C6: the selector resolver is total (it always returns a selector
dictionary): explicit non-empty selectors are returned unchanged regardless of
the URL; otherwise the detected platform's built-in selector set is used when
the table has it; and when no platform pattern matches (lookup misses) the
generic fallback dictionary is returned. -/
theorem C6_selector_resolver (config : CompanyConfig) :
    (∀ sel, config.selectors = some sel → sel ≠ [] →
      get_selectors_for_company config = sel) ∧
    ((config.selectors = none ∨ config.selectors = some []) →
      get_selectors_for_company config = selectors_by_platform config.url) ∧
    (∀ g, generic_selectors.lookup (detect_job_platform config.url) = some g →
      selectors_by_platform config.url = g) ∧
    (generic_selectors.lookup (detect_job_platform config.url) = none →
      selectors_by_platform config.url = fallback_selectors) := by
  refine ⟨?_, ?_, ?_, ?_⟩
  · intro sel hs hne
    cases sel with
    | nil => exact absurd rfl hne
    | cons a t => simp [get_selectors_for_company, hs]
  · rintro (hs | hs) <;> simp [get_selectors_for_company, hs]
  · intro g hg
    simp [selectors_by_platform, hg]
  · intro hn
    simp [selectors_by_platform, hn]

/-- Claim C6 witness: a config with an explicit selector dictionary gets it
back verbatim even though its URL matches the lever platform pattern. -/
theorem C6_witness :
    (CompanyConfig.mk "X" "https://jobs.lever.co/x" (some [("job_container", ".row")])).selectors
        = some [("job_container", ".row")] ∧
    ([("job_container", ".row")] : SelectorDict) ≠ [] ∧
    get_selectors_for_company
        (CompanyConfig.mk "X" "https://jobs.lever.co/x" (some [("job_container", ".row")]))
      = [("job_container", ".row")] :=
  ⟨rfl, by decide,
   (C6_selector_resolver
      (CompanyConfig.mk "X" "https://jobs.lever.co/x" (some [("job_container", ".row")]))).1
     [("job_container", ".row")] rfl (by decide)⟩

/-- Claim C7: the Railway orchestrator probes the dynamic backend once (at
construction) and the backend used is constant across all sites of the run;
when the probe fails every site — including sites after the first — is
extracted with the static requests+BeautifulSoup backend. -/
theorem C7_backend_constant (probe_ok : Bool) (sites : List String) :
    (probe_ok = false → ∀ p ∈ run_cycle_backends (railway_init probe_ok) sites,
      p.2 = Backend.requests_bs4) ∧
    (∀ p ∈ run_cycle_backends (railway_init probe_ok) sites,
      ∀ q ∈ run_cycle_backends (railway_init probe_ok) sites, p.2 = q.2) ∧
    (run_cycle_backends (railway_init probe_ok) sites).length = sites.length := by
  have hform : ∀ p ∈ run_cycle_backends (railway_init probe_ok) sites,
      p.2 = (if probe_ok then Backend.playwright else Backend.requests_bs4) := by
    intro p hmem
    cases probe_ok with
    | false =>
      simp only [run_cycle_backends, railway_init, patch_for_requests_scraping,
        if_false, List.mem_map, Bool.false_eq_true] at hmem
      obtain ⟨s, _, hs⟩ := hmem
      simp [← hs]
    | true =>
      simp only [run_cycle_backends, railway_init, if_true, List.mem_map] at hmem
      obtain ⟨s, _, hs⟩ := hmem
      simp [← hs]
  refine ⟨?_, ?_, ?_⟩
  · intro hp p hmem
    have hb := hform p hmem
    rw [hp] at hb
    simpa using hb
  · intro p hp q hq
    rw [hform p hp, hform q hq]
  · cases probe_ok <;>
      simp [run_cycle_backends, railway_init, patch_for_requests_scraping]

/-- Claim C7 witness: with a failed probe and two configured sites, both sites
use the static backend. -/
theorem C7_witness :
    (false = false) ∧
    (∀ p ∈ run_cycle_backends (railway_init false) ["siteA", "siteB"],
      p.2 = Backend.requests_bs4) :=
  ⟨rfl, (C7_backend_constant false ["siteA", "siteB"]).1 rfl⟩

/-- Claim C8: the dynamic extraction backend has no error channel in its return
type — every exception inside it is caught — and (a) a total failure before
container processing (session creation, navigation, or the container query
throwing, all modelled by the `none` environment) yields the empty posting
list, while (b) a container whose parsing raises is skipped, leaving the result
exactly as if that container were absent. -/
theorem C8_scrape_failures (company_name url : String) :
    scrape_job_site company_name url none = [] ∧
    (∀ pre post, scrape_job_site company_name url
        (some (pre ++ ContainerOutcome.raises :: post)) =
      scrape_job_site company_name url (some (pre ++ post))) := by
  refine ⟨rfl, ?_⟩
  intro pre post
  simp [scrape_job_site, List.filterMap_append, List.filterMap_cons]

/-- Claim C9: a keyword list containing the empty string retains every posting,
because the empty string is a substring of every (lowered) title. -/
theorem C9_empty_keyword (jobs : List JobData) (keywords : List String)
    (hk : "" ∈ keywords) :
    filter_jobs_by_keywords jobs keywords = jobs := by
  have hne : keywords.isEmpty = false := by
    cases keywords with
    | nil => cases hk
    | cons k ks => rfl
  simp only [filter_jobs_by_keywords, hne, Bool.false_eq_true, if_false]
  refine List.filter_eq_self.mpr ?_
  intro j hj
  rw [title_matches, List.any_eq_true]
  refine ⟨"", hk, ?_⟩
  show has_substr (lower "").data (lower j.title).data = true
  exact has_substr_nil _

/-- Claim C9 witness: the keyword list ["", "ops"] keeps both postings,
including the one whose title does not contain "ops". -/
theorem C9_witness :
    ("" ∈ ["", "ops"]) ∧ filter_jobs_by_keywords [jA, jB] ["", "ops"] = [jA, jB] :=
  ⟨by decide, C9_empty_keyword [jA, jB] ["", "ops"] (by decide)⟩

/-- Claim C10: "Unknown Title" is the sentinel for a missing title: a container
whose extracted (stripped) title text equals exactly "Unknown Title" produces
no posting, exactly as if its title element were missing, and contributes
nothing to the scrape result. -/
theorem C10_unknown_title_sentinel (company_name url t : String) (f : ContainerFields)
    (ht : f.title_text = some t) (hs : strip t = "Unknown Title") :
    process_container company_name url f = none ∧
    process_container company_name url f =
      process_container company_name url { f with title_text := none } ∧
    scrape_job_site company_name url (some [ContainerOutcome.fields f]) = [] := by
  have h1 : process_container company_name url f = none := by
    simp [process_container, ht, hs]
  have h2 : process_container company_name url { f with title_text := none } = none := by
    simp [process_container]
  exact ⟨h1, by rw [h1, h2], by simp [scrape_job_site, h1]⟩

/-- Claim C10 witness: a concrete container whose title text is exactly
"Unknown Title" is dropped. -/
theorem C10_witness :
    (ContainerFields.mk (some "Unknown Title") "" none none none).title_text
        = some "Unknown Title" ∧
    strip "Unknown Title" = "Unknown Title" ∧
    process_container "Acme" "https://acme.example"
        (ContainerFields.mk (some "Unknown Title") "" none none none) = none :=
  ⟨rfl, by decide,
   (C10_unknown_title_sentinel "Acme" "https://acme.example" "Unknown Title"
      (ContainerFields.mk (some "Unknown Title") "" none none none) rfl (by decide)).1⟩

end JobMonitor
